import Mathlib

/-!
Shallow embedding of `config-vault` (src/src/lib.rs): a `config` crate
`Source` loading secrets from HashiCorp Vault's KV1/KV2 HTTP API.

Modelling conventions:
* `Url.parse`, `path_segments_mut` and URL serialization are from the
  third-party `url` crate; a parsed URL is modelled as `ParsedUrl`
  (scheme/host/port plus the list of path segments, unencoded, and the
  `cannot_be_a_base` flag), and `Url::parse` is modelled by passing its
  outcome (`UrlParseResult`) as an explicit input.
* The single HTTP round trip of `reqwest` is modelled by passing the
  response (`HttpResponse`: status code, plus the JSON-decode outcome of
  the body) as an explicit input; theorems quantifying over both bodies
  express that the body is never consulted.
* `serde_json::Value` is the inductive `Json`; object fields keep their
  decode order as an association list.
* Rust `Option::unwrap` / `Result::unwrap` on a missing value is a panic,
  modelled by the dedicated outcome `Outcome.panicked`.
* Machine integers: HTTP status codes are plain `Nat` (no arithmetic
  overflows anywhere in the code).
-/

/-- Enumeration `KvVersion` from lib.rs (V1 = 1, V2). -/
inductive KvVersion where
  | V1
  | V2
deriving DecidableEq, Repr

/-- Struct `VaultSource` from lib.rs. -/
structure VaultSource where
  vault_addr : String
  vault_token : String
  vault_mount : String
  vault_path : String
  kv_version : KvVersion
deriving DecidableEq, Repr

/-- Embeds `KvVersion::get_api_path`: `format!("v1/{}/{}", mount, path)` for V1,
`format!("v1/{}/data/{}", mount, path)` otherwise. -/
def KvVersion.get_api_path : KvVersion → String → String → String
  | .V1, mount, path => "v1/" ++ mount ++ "/" ++ path
  | _, mount, path => "v1/" ++ mount ++ "/data/" ++ path

/-- Embeds `VaultSource::new`: all four fields stored, `kv_version: KvVersion::V2`. -/
def VaultSource.new (vault_addr vault_token vault_mount vault_path : String) :
    VaultSource :=
  { vault_addr, vault_token, vault_mount, vault_path, kv_version := .V2 }

/-- Embeds `VaultSource::new_v1`: all four fields stored, `kv_version: KvVersion::V1`. -/
def VaultSource.new_v1 (vault_addr vault_token vault_mount vault_path : String) :
    VaultSource :=
  { vault_addr, vault_token, vault_mount, vault_path, kv_version := .V1 }

/-- Embeds `VaultSource::set_kv_version` (`self.kv_version = kv_version;`),
with `&mut self` rendered as returning the updated record. -/
def VaultSource.set_kv_version (s : VaultSource) (kv_version : KvVersion) :
    VaultSource :=
  { s with kv_version := kv_version }

/-- Model of a parsed hierarchical URL from the `url` crate: scheme, host,
optional port, the path split into segments (unencoded), and the
`cannot_be_a_base` flag that makes `path_segments_mut` fail. -/
structure ParsedUrl where
  scheme : String
  host : String
  port : Option Nat
  segments : List String
  cannot_be_base : Bool
deriving DecidableEq, Repr

/-- Model of the outcome of `Url::parse(&self.vault_addr)`: either a parsed
URL or the parse error's display string `e`. -/
inductive UrlParseResult where
  | ok (u : ParsedUrl)
  | err (e : String)
deriving DecidableEq, Repr

/-- Embeds Rust `str::split('/')`: split the character list on `'/'`,
keeping empty pieces (so the result list is never empty). -/
def splitSlash (s : String) : List String :=
  (s.data.splitOn '/').map (fun cs => String.mk cs)

/-- Serialization of a segment list back into a path tail: the segments
joined with `'/'` (the `url` crate writes the path as `/` followed by
exactly this join). -/
def joinSegments (segs : List String) : String :=
  String.mk (List.intercalate ['/'] (segs.map String.data))

/-- Serialized path of a parsed URL: `/` followed by the joined segments. -/
def urlPathString (u : ParsedUrl) : String :=
  "/" ++ joinSegments u.segments

/-- Embeds `PathSegmentsMut::pop_if_empty`: remove the last path segment
if (and only if) it is empty, at most once. -/
def popIfEmpty (segs : List String) : List String :=
  if segs.getLast? = some "" then segs.dropLast else segs

/-- Model of the `config` crate's `ConfigError` as used by lib.rs:
`ConfigError::Message(msg)` and `ConfigError::Foreign(e)` (the foreign
boxed error kept as its display string). -/
inductive ConfigError where
  | Message (msg : String)
  | Foreign (desc : String)
deriving DecidableEq, Repr

/-- Model of `serde_json::Value`. -/
inductive Json where
  | null
  | bool (b : Bool)
  | num (n : Int)
  | str (s : String)
  | arr (elems : List Json)
  | obj (fields : List (String × Json))

/-- Embeds `serde_json::Value::get(key)` on objects (map lookup; `None`
on any non-object). -/
def Json.get : Json → String → Option Json
  | .obj fields, key => (fields.find? (fun p => p.1 == key)).map (fun p => p.2)
  | _, _ => none

/-- Embeds `serde_json::Value::as_object()` (the field list, `None`
otherwise). -/
def Json.as_object : Json → Option (List (String × Json))
  | .obj fields => some fields
  | _ => none

/-- Embeds `serde_json::Value::as_str()` (`Some` exactly on JSON strings). -/
def Json.as_str : Json → Option String
  | .str s => some s
  | _ => none

/-- Embeds `VaultSource::build_kv_read_url`, with the outcome of
`Url::parse(&self.vault_addr)` supplied as input (`url` crate is
third-party): parse error ⇒ `Invalid Vault address URL: {e}` message;
`cannot_be_a_base` ⇒ `Vault address URL cannot be a base` message;
otherwise `pop_if_empty` then `extend(api_path.split('/'))`. -/
def VaultSource.build_kv_read_url (src : VaultSource) (parsed : UrlParseResult) :
    Except ConfigError ParsedUrl :=
  let api_path := src.kv_version.get_api_path src.vault_mount src.vault_path
  match parsed with
  | .err e => .error (.Message ("Invalid Vault address URL: " ++ e))
  | .ok u =>
    if u.cannot_be_base then
      .error (.Message "Vault address URL cannot be a base")
    else
      .ok { u with segments := popIfEmpty u.segments ++ splitSlash api_path }

/-- Canonical reason phrase of `http::StatusCode`'s `Display` (the crate
falls back to `<unknown status code>`); only the codes exercised here are
tabulated. -/
def canonicalReason (n : Nat) : String :=
  if n = 200 then "OK"
  else if n = 400 then "Bad Request"
  else if n = 403 then "Forbidden"
  else if n = 404 then "Not Found"
  else if n = 500 then "Internal Server Error"
  else "<unknown status code>"

/-- Display of `reqwest::StatusCode` (`{code} {canonical reason}`), as
interpolated by `format!` in the error branch of `collect`. -/
def statusDisplay (n : Nat) : String :=
  toString n ++ " " ++ canonicalReason n

/-- Embeds `StatusCode::is_success`: the 2xx range `200..=299`. -/
def is_success (n : Nat) : Bool :=
  200 ≤ n && n ≤ 299

/-- Model of the HTTP response reaching `collect` after a successful send:
the status code, and the outcome of `response.json::<JsonValue>()`
(`none` models a body that is not valid JSON). -/
structure HttpResponse where
  status : Nat
  body : Option Json

/-- Outcome of a Rust call that may also panic: `ok`, a returned `Err`,
or a panic (from `unwrap`). -/
inductive Outcome (α : Type) where
  | ok (a : α)
  | err (e : ConfigError)
  | panicked
deriving DecidableEq, Repr

/-- Embeds `HashMap::insert` on the association-list model of
`Map<String, Value>`: replace the binding if the key is present, else
append it. -/
def insertAssoc (m : List (String × String)) (k v : String) :
    List (String × String) :=
  if m.any (fun p => p.1 == k) then
    m.map (fun p => if p.1 == k then (k, v) else p)
  else
    m ++ [(k, v)]

/-- Embeds the `for (k, v) in json_obj` loop of `collect`:
`secret.insert(k.clone(), Value::from(v.as_str().unwrap()))`; a
non-string value makes `unwrap` panic (`none`). -/
def collectEntries : List (String × Json) → List (String × String) →
    Option (List (String × String))
  | [], acc => some acc
  | (k, v) :: rest, acc =>
    match v.as_str with
    | some s => collectEntries rest (insertAssoc acc k s)
    | none => none

/-- Embeds `Source::collect` for `VaultSource`, with the URL-parse outcome
and the HTTP response as explicit inputs (the send itself is assumed to
have succeeded; a transport failure is outside this model). Follows
lib.rs lines 213-252: build URL (propagating its error), then on a
success status decode the body (`Foreign` on JSON failure), navigate
`data` (and `data.data` for V2), `as_object().unwrap()`, then the
string-insert loop; on a non-success status return the
`Failed to fetch secret from Vault (wrong kv version?): {status}` message. -/
def VaultSource.collect (src : VaultSource) (parsed : UrlParseResult)
    (resp : HttpResponse) : Outcome (List (String × String)) :=
  match src.build_kv_read_url parsed with
  | .error e => .err e
  | .ok _url =>
    if is_success resp.status then
      match resp.body with
      | none => .err (.Foreign "error decoding response body")
      | some raw =>
        match ((raw.get "data").bind (fun x =>
            if src.kv_version = .V2 then x.get "data" else some x)).bind
            Json.as_object with
        | none => .panicked
        | some json_obj =>
          match collectEntries json_obj [] with
          | none => .panicked
          | some secret => .ok secret
    else
      .err (.Message ("Failed to fetch secret from Vault (wrong kv version?): "
        ++ statusDisplay resp.status))

/-! ## Claim theorems -/

/-- C9: for all constructor arguments, `VaultSource::new` stores the four
fields and sets `kv_version = V2`; `VaultSource::new_v1` stores the same
fields and sets `kv_version = V1`; and the only way to change the version
afterwards is the explicit `set_kv_version` override, which installs
exactly the requested version. -/
theorem new_is_v2_and_new_v1_is_v1 (a t m p : String) :
    (VaultSource.new a t m p).kv_version = .V2 ∧
    (VaultSource.new_v1 a t m p).kv_version = .V1 ∧
    (VaultSource.new a t m p) =
      { vault_addr := a, vault_token := t, vault_mount := m, vault_path := p,
        kv_version := .V2 } ∧
    (VaultSource.new_v1 a t m p) =
      { vault_addr := a, vault_token := t, vault_mount := m, vault_path := p,
        kv_version := .V1 } ∧
    ∀ v : KvVersion, ((VaultSource.new a t m p).set_kv_version v).kv_version = v :=
  ⟨rfl, rfl, rfl, rfl, fun _ => rfl⟩

/-- C10: `set_kv_version v` sets the `kv_version` field to `v` and leaves
`vault_addr`, `vault_token`, `vault_mount` and `vault_path` unchanged. -/
theorem set_kv_version_frame (s : VaultSource) (v : KvVersion) :
    (s.set_kv_version v).kv_version = v ∧
    (s.set_kv_version v).vault_addr = s.vault_addr ∧
    (s.set_kv_version v).vault_token = s.vault_token ∧
    (s.set_kv_version v).vault_mount = s.vault_mount ∧
    (s.set_kv_version v).vault_path = s.vault_path :=
  ⟨rfl, rfl, rfl, rfl, rfl⟩

/-- C2: on a 2xx response whose body lacks the envelope expected for the
configured KV version (here a V1-shaped body `{"data":{}}` while
`kv_version = V2`), `collect` does not return a typed `MissingPayload`
error: it panics through `Option::unwrap` (lib.rs line 238). -/
theorem collect_missing_payload_panics :
    VaultSource.collect
      (VaultSource.new "http://127.0.0.1:8200" "hvs.token" "secret" "dev")
      (.ok { scheme := "http", host := "127.0.0.1", port := some 8200,
             segments := [""], cannot_be_base := false })
      { status := 200, body := some (.obj [("data", .obj [])]) } =
    .panicked := by
  rfl

/-- C3: on a 2xx response whose payload contains a non-string value
(`{"data":{"data":{"k1":42}}}` with `kv_version = V2`), `collect` does not
return a typed `UnsupportedValueType` error: it panics through the
`v.as_str().unwrap()` call (lib.rs line 242). -/
theorem collect_non_string_value_panics :
    VaultSource.collect
      (VaultSource.new "http://127.0.0.1:8200" "hvs.token" "secret" "dev")
      (.ok { scheme := "http", host := "127.0.0.1", port := some 8200,
             segments := [""], cannot_be_base := false })
      { status := 200,
        body := some (.obj [("data", .obj [("data", .obj [("k1", .num 42)])])]) } =
    .panicked := by
  rfl

/-- C5: on any response whose status is outside the 2xx success range,
`collect` returns the `Failed to fetch secret from Vault` message error,
whose text contains the numeric status code, and the outcome does not
depend on the response body (the body is never parsed). -/
theorem collect_non_success_remote_error (src : VaultSource) (u : ParsedUrl)
    (resp : HttpResponse) (hu : u.cannot_be_base = false)
    (hs : is_success resp.status = false) :
    (∃ pre post, VaultSource.collect src (.ok u) resp =
      .err (.Message (pre ++ toString resp.status ++ post))) ∧
    ∀ b₁ b₂ : Option Json,
      VaultSource.collect src (.ok u) { status := resp.status, body := b₁ } =
      VaultSource.collect src (.ok u) { status := resp.status, body := b₂ } := by
  constructor
  · refine ⟨"Failed to fetch secret from Vault (wrong kv version?): ",
      " " ++ canonicalReason resp.status, ?_⟩
    simp [VaultSource.collect, VaultSource.build_kv_read_url, hu, hs,
      statusDisplay, String.append_assoc]
  · intro b₁ b₂
    simp [VaultSource.collect, VaultSource.build_kv_read_url, hu, hs]

/-- Witness for C5 at a concrete 403 response. -/
theorem collect_non_success_remote_error_witness :
    (∃ pre post, VaultSource.collect
        (VaultSource.new "http://127.0.0.1:8200" "hvs.token" "secret" "dev")
        (.ok { scheme := "http", host := "127.0.0.1", port := some 8200,
               segments := [""], cannot_be_base := false })
        { status := 403, body := none } =
      .err (.Message (pre ++ toString (403 : Nat) ++ post))) ∧
    ∀ b₁ b₂ : Option Json,
      VaultSource.collect
        (VaultSource.new "http://127.0.0.1:8200" "hvs.token" "secret" "dev")
        (.ok { scheme := "http", host := "127.0.0.1", port := some 8200,
               segments := [""], cannot_be_base := false })
        { status := 403, body := b₁ } =
      VaultSource.collect
        (VaultSource.new "http://127.0.0.1:8200" "hvs.token" "secret" "dev")
        (.ok { scheme := "http", host := "127.0.0.1", port := some 8200,
               segments := [""], cannot_be_base := false })
        { status := 403, body := b₂ } :=
  collect_non_success_remote_error _ _ _ rfl rfl

/-- C8: when `Url::parse` of the address fails with error `e`, `collect`
returns the `Invalid Vault address URL: {e}` message error, and its
outcome is independent of the HTTP response (no I/O is needed); when the
address parses but is non-hierarchical (`cannot_be_a_base`), `collect`
returns the `Vault address URL cannot be a base` message error, likewise
independent of the response. -/
theorem collect_invalid_address_no_io (src : VaultSource) (e : String)
    (u : ParsedUrl) (r r' : HttpResponse) :
    VaultSource.collect src (.err e) r =
      .err (.Message ("Invalid Vault address URL: " ++ e)) ∧
    VaultSource.collect src (.err e) r = VaultSource.collect src (.err e) r' ∧
    (u.cannot_be_base = true →
      VaultSource.collect src (.ok u) r =
        .err (.Message "Vault address URL cannot be a base") ∧
      VaultSource.collect src (.ok u) r = VaultSource.collect src (.ok u) r') := by
  refine ⟨by simp [VaultSource.collect, VaultSource.build_kv_read_url],
    by simp [VaultSource.collect, VaultSource.build_kv_read_url], ?_⟩
  intro h
  constructor
  · simp [VaultSource.collect, VaultSource.build_kv_read_url, h]
  · simp [VaultSource.collect, VaultSource.build_kv_read_url, h]

/-- Witness for C8 at the spec's example `"not a url"` (whose `url`-crate
parse error displays as `relative URL without a base`) and at a
non-hierarchical `mailto:` address, with two unrelated responses. -/
theorem collect_invalid_address_no_io_witness :
    VaultSource.collect
      (VaultSource.new "not a url" "hvs.token" "secret" "dev")
      (.err "relative URL without a base") { status := 200, body := none } =
      .err (.Message ("Invalid Vault address URL: "
        ++ "relative URL without a base")) ∧
    VaultSource.collect
      (VaultSource.new "not a url" "hvs.token" "secret" "dev")
      (.err "relative URL without a base") { status := 200, body := none } =
    VaultSource.collect
      (VaultSource.new "not a url" "hvs.token" "secret" "dev")
      (.err "relative URL without a base")
      { status := 500, body := some .null } ∧
    VaultSource.collect
      (VaultSource.new "mailto:a@b" "hvs.token" "secret" "dev")
      (.ok { scheme := "mailto", host := "", port := none, segments := [],
             cannot_be_base := true })
      { status := 200, body := none } =
      .err (.Message "Vault address URL cannot be a base") ∧
    VaultSource.collect
      (VaultSource.new "mailto:a@b" "hvs.token" "secret" "dev")
      (.ok { scheme := "mailto", host := "", port := none, segments := [],
             cannot_be_base := true })
      { status := 200, body := none } =
    VaultSource.collect
      (VaultSource.new "mailto:a@b" "hvs.token" "secret" "dev")
      (.ok { scheme := "mailto", host := "", port := none, segments := [],
             cannot_be_base := true })
      { status := 500, body := some .null } :=
  And.intro
    (collect_invalid_address_no_io (VaultSource.new "not a url" "hvs.token"
      "secret" "dev") "relative URL without a base"
      { scheme := "mailto", host := "", port := none, segments := [],
        cannot_be_base := true }
      { status := 200, body := none } { status := 500, body := some .null }).1
    (And.intro
      (collect_invalid_address_no_io (VaultSource.new "not a url" "hvs.token"
        "secret" "dev") "relative URL without a base"
        { scheme := "mailto", host := "", port := none, segments := [],
          cannot_be_base := true }
        { status := 200, body := none } { status := 500, body := some .null }).2.1
      (And.intro
        ((collect_invalid_address_no_io (VaultSource.new "mailto:a@b"
          "hvs.token" "secret" "dev") "relative URL without a base"
          { scheme := "mailto", host := "", port := none, segments := [],
            cannot_be_base := true }
          { status := 200, body := none }
          { status := 500, body := some .null }).2.2 rfl).1
        ((collect_invalid_address_no_io (VaultSource.new "mailto:a@b"
          "hvs.token" "secret" "dev") "relative URL without a base"
          { scheme := "mailto", host := "", port := none, segments := [],
            cannot_be_base := true }
          { status := 200, body := none }
          { status := 500, body := some .null }).2.2 rfl).2))

/-- Helper: the insert loop of `collect`, run over an all-string payload
whose keys are pairwise distinct and disjoint from the accumulator,
appends exactly those entries in order. -/
theorem collectEntries_all_strings (entries : List (String × String)) :
    ∀ acc : List (String × String),
    (∀ p ∈ entries, acc.any (fun q => q.1 == p.1) = false) →
    (entries.map Prod.fst).Nodup →
    collectEntries (entries.map (fun p => (p.1, Json.str p.2))) acc =
      some (acc ++ entries) := by
  induction entries with
  | nil => intro acc _ _; simp [collectEntries]
  | cons head rest ih =>
    intro acc hdisj hnd
    obtain ⟨k, v⟩ := head
    have hacc : acc.any (fun q => q.1 == k) = false :=
      hdisj (k, v) (List.mem_cons_self _ _)
    have hknot : k ∉ rest.map Prod.fst := by
      simpa using (List.nodup_cons.mp hnd).1
    simp only [List.map_cons, collectEntries, Json.as_str]
    rw [insertAssoc, if_neg (by simp [hacc])]
    rw [ih (acc ++ [(k, v)]) ?_ (List.nodup_cons.mp hnd).2]
    · simp
    · intro p hp
      have h₁ : acc.any (fun q => q.1 == p.1) = false :=
        hdisj p (List.mem_cons_of_mem _ hp)
      have h₂ : k ≠ p.1 := by
        intro hk
        exact hknot (hk ▸ List.mem_map_of_mem Prod.fst hp)
      simp [List.any_append, h₁, h₂]

/-- Helper: `collect` on a hierarchical address, KV version V2, a success
status and a well-formed V2 envelope whose payload holds exactly the
given string entries (pairwise-distinct keys, as JSON decoding
guarantees) returns exactly those entries. -/
theorem collect_v2_strings (src : VaultSource) (u : ParsedUrl) (status : Nat)
    (entries : List (String × String)) (hu : u.cannot_be_base = false)
    (hv : src.kv_version = .V2) (hs : is_success status = true)
    (hnd : (entries.map Prod.fst).Nodup) :
    VaultSource.collect src (.ok u)
      { status := status,
        body := some (.obj [("data", .obj [("data",
          .obj (entries.map (fun p => (p.1, Json.str p.2))))])]) } =
    .ok entries := by
  have hloop := collectEntries_all_strings entries [] (by simp) hnd
  simp [VaultSource.collect, VaultSource.build_kv_read_url, hu, hs, hv,
    Json.get, Json.as_object, hloop]

/-- C6: on a 2xx response whose body is a well-formed V2 envelope with an
all-string payload (keys pairwise distinct, as JSON object decoding
guarantees) and `kv_version = V2`, `collect` returns exactly the payload
entries: one entry per payload key, each key unchanged and bound to its
string value, and no other keys. -/
theorem collect_v2_returns_exact_mapping (src : VaultSource) (u : ParsedUrl)
    (status : Nat) (entries : List (String × String))
    (hu : u.cannot_be_base = false) (hv : src.kv_version = .V2)
    (hs : is_success status = true) (hnd : (entries.map Prod.fst).Nodup) :
    VaultSource.collect src (.ok u)
      { status := status,
        body := some (.obj [("data", .obj [("data",
          .obj (entries.map (fun p => (p.1, Json.str p.2))))])]) } =
    .ok entries :=
  collect_v2_strings src u status entries hu hv hs hnd

/-- Witness for C6 at the spec's example body
`{"data":{"data":{"k1":"v1","k2":"v2"}}}`. -/
theorem collect_v2_returns_exact_mapping_witness :
    VaultSource.collect
      (VaultSource.new "http://127.0.0.1:8200" "hvs.token" "secret" "dev")
      (.ok { scheme := "http", host := "127.0.0.1", port := some 8200,
             segments := [""], cannot_be_base := false })
      { status := 200,
        body := some (.obj [("data", .obj [("data",
          .obj [("k1", .str "v1"), ("k2", .str "v2")])])]) } =
    .ok [("k1", "v1"), ("k2", "v2")] :=
  collect_v2_returns_exact_mapping
    (VaultSource.new "http://127.0.0.1:8200" "hvs.token" "secret" "dev")
    { scheme := "http", host := "127.0.0.1", port := some 8200,
      segments := [""], cannot_be_base := false }
    200 [("k1", "v1"), ("k2", "v2")] rfl rfl rfl (by decide)

/-- C7: on a 2xx response whose payload is an empty JSON object
(`{"data":{"data":{}}}` with `kv_version = V2`), `collect` returns the
empty mapping, not an error. -/
theorem collect_v2_empty_payload_ok (src : VaultSource) (u : ParsedUrl)
    (status : Nat) (hu : u.cannot_be_base = false)
    (hv : src.kv_version = .V2) (hs : is_success status = true) :
    VaultSource.collect src (.ok u)
      { status := status,
        body := some (.obj [("data", .obj [("data", .obj [])])]) } =
    .ok [] :=
  collect_v2_strings src u status [] hu hv hs (by simp)

/-- Witness for C7 at a concrete source and a 200 response. -/
theorem collect_v2_empty_payload_ok_witness :
    VaultSource.collect
      (VaultSource.new "http://127.0.0.1:8200" "hvs.token" "secret" "dev")
      (.ok { scheme := "http", host := "127.0.0.1", port := some 8200,
             segments := [""], cannot_be_base := false })
      { status := 200,
        body := some (.obj [("data", .obj [("data", .obj [])])]) } =
    .ok [] :=
  collect_v2_empty_payload_ok
    (VaultSource.new "http://127.0.0.1:8200" "hvs.token" "secret" "dev")
    { scheme := "http", host := "127.0.0.1", port := some 8200,
      segments := [""], cannot_be_base := false }
    200 rfl rfl rfl

/-- Helper: `intercalate` of a singleton separator over `a :: b :: l`
puts the separator between the first list and the rest. -/
theorem intercalate_cons₂ {α : Type} (x : α) (a b : List α) (l : List (List α)) :
    [x].intercalate (a :: b :: l) = a ++ x :: [x].intercalate (b :: l) := by
  simp [List.intercalate, List.intersperse]

/-- Helper: `intercalate` of a singleton separator distributes over the
append of two nonempty lists of lists. -/
theorem intercalate_append_ne_nil {α : Type} (x : α) (as bs : List (List α))
    (ha : as ≠ []) (hb : bs ≠ []) :
    [x].intercalate (as ++ bs) = [x].intercalate as ++ x :: [x].intercalate bs := by
  induction as with
  | nil => exact absurd rfl ha
  | cons a as' ih =>
    cases as' with
    | nil =>
      obtain ⟨b, bs', rfl⟩ : ∃ b bs', bs = b :: bs' := by
        cases bs with
        | nil => exact absurd rfl hb
        | cons b bs' => exact ⟨b, bs', rfl⟩
      simp [intercalate_cons₂, List.intercalate]
    | cons a' as'' =>
      have ih' := ih (by simp)
      simp only [List.cons_append] at ih' ⊢
      rw [intercalate_cons₂, ih', intercalate_cons₂]
      simp [List.append_assoc]

/-- Helper: splitting on `'/'` never yields an empty list of segments. -/
theorem splitSlash_ne_nil (s : String) : splitSlash s ≠ [] := by
  intro h
  rw [splitSlash, List.map_eq_nil_iff] at h
  exact List.splitOnP_ne_nil _ _ h

/-- Helper: joining the segments of `splitSlash s` with `'/'` restores `s`. -/
theorem joinSegments_splitSlash (s : String) :
    joinSegments (splitSlash s) = s := by
  rw [joinSegments, splitSlash, List.map_map]
  have h : List.map (String.data ∘ fun cs => String.mk cs) (List.splitOn '/' s.data)
      = List.splitOn '/' s.data := List.map_id'' (fun x => rfl) _
  rw [h, List.intercalate_splitOn s.data '/']

/-- Helper: `joinSegments` distributes over the append of two nonempty
segment lists, inserting one slash. -/
theorem joinSegments_append (a b : List String) (ha : a ≠ []) (hb : b ≠ []) :
    joinSegments (a ++ b) = joinSegments a ++ "/" ++ joinSegments b := by
  rw [joinSegments, List.map_append,
    intercalate_append_ne_nil '/' (a.map String.data) (b.map String.data)
      (by simpa using ha) (by simpa using hb)]
  show String.mk _ = String.mk _
  exact congrArg String.mk (by simp)

/-- Helper: appending the slash-split of `s` to any base segment list
gives a path whose serialization ends with `s` itself. -/
theorem joinSegments_append_splitSlash_suffix (base : List String) (s : String) :
    ∃ pre, "/" ++ joinSegments (base ++ splitSlash s) = pre ++ s := by
  cases hb : base with
  | nil => exact ⟨"/", by rw [List.nil_append, joinSegments_splitSlash]⟩
  | cons c cs =>
    refine ⟨"/" ++ (joinSegments base ++ "/"), ?_⟩
    rw [hb] at *
    rw [joinSegments_append (c :: cs) (splitSlash s) (by simp) (splitSlash_ne_nil s),
      joinSegments_splitSlash]
    simp [String.append_assoc]

/-- C1: for every source whose address is a valid hierarchical URL, the
URL built by `build_kv_read_url` is returned successfully and its
serialized path ends with `v1/{mount}/data/{path}` when
`kv_version = V2`, and with `v1/{mount}/{path}` when `kv_version = V1`. -/
theorem build_kv_read_url_suffix (src : VaultSource) (u : ParsedUrl)
    (hu : u.cannot_be_base = false) :
    ∃ u', src.build_kv_read_url (.ok u) = .ok u' ∧
      (src.kv_version = .V2 → ∃ pre, urlPathString u' =
        pre ++ ("v1/" ++ src.vault_mount ++ "/data/" ++ src.vault_path)) ∧
      (src.kv_version = .V1 → ∃ pre, urlPathString u' =
        pre ++ ("v1/" ++ src.vault_mount ++ "/" ++ src.vault_path)) := by
  have hbuild : src.build_kv_read_url (.ok u) = .ok { u with segments := popIfEmpty u.segments ++ splitSlash (src.kv_version.get_api_path src.vault_mount src.vault_path) } := by
    simp [VaultSource.build_kv_read_url, hu]
  refine ⟨_, hbuild, ?_, ?_⟩
  · intro hv
    obtain ⟨pre, hp⟩ := joinSegments_append_splitSlash_suffix
      (popIfEmpty u.segments)
      (src.kv_version.get_api_path src.vault_mount src.vault_path)
    refine ⟨pre, ?_⟩
    rw [urlPathString, hp, hv]
    rfl
  · intro hv
    obtain ⟨pre, hp⟩ := joinSegments_append_splitSlash_suffix
      (popIfEmpty u.segments)
      (src.kv_version.get_api_path src.vault_mount src.vault_path)
    refine ⟨pre, ?_⟩
    rw [urlPathString, hp, hv]
    rfl

/-- Witness for C1: a V2 source and a V1 source at the root address
`http://127.0.0.1:8200` (parsed segments `[""]`). -/
theorem build_kv_read_url_suffix_witness :
    (∃ u', (VaultSource.new "http://127.0.0.1:8200" "hvs.token" "secret"
        "dev").build_kv_read_url
        (.ok { scheme := "http", host := "127.0.0.1", port := some 8200,
               segments := [""], cannot_be_base := false }) = .ok u' ∧
      ((VaultSource.new "http://127.0.0.1:8200" "hvs.token" "secret"
          "dev").kv_version = .V2 → ∃ pre, urlPathString u' =
        pre ++ ("v1/" ++ "secret" ++ "/data/" ++ "dev")) ∧
      ((VaultSource.new "http://127.0.0.1:8200" "hvs.token" "secret"
          "dev").kv_version = .V1 → ∃ pre, urlPathString u' =
        pre ++ ("v1/" ++ "secret" ++ "/" ++ "dev"))) ∧
    (∃ u', (VaultSource.new_v1 "http://127.0.0.1:8200" "hvs.token" "secret"
        "dev").build_kv_read_url
        (.ok { scheme := "http", host := "127.0.0.1", port := some 8200,
               segments := [""], cannot_be_base := false }) = .ok u' ∧
      ((VaultSource.new_v1 "http://127.0.0.1:8200" "hvs.token" "secret"
          "dev").kv_version = .V2 → ∃ pre, urlPathString u' =
        pre ++ ("v1/" ++ "secret" ++ "/data/" ++ "dev")) ∧
      ((VaultSource.new_v1 "http://127.0.0.1:8200" "hvs.token" "secret"
          "dev").kv_version = .V1 → ∃ pre, urlPathString u' =
        pre ++ ("v1/" ++ "secret" ++ "/" ++ "dev"))) :=
  ⟨build_kv_read_url_suffix
      (VaultSource.new "http://127.0.0.1:8200" "hvs.token" "secret" "dev")
      { scheme := "http", host := "127.0.0.1", port := some 8200,
        segments := [""], cannot_be_base := false } rfl,
    build_kv_read_url_suffix
      (VaultSource.new_v1 "http://127.0.0.1:8200" "hvs.token" "secret" "dev")
      { scheme := "http", host := "127.0.0.1", port := some 8200,
        segments := [""], cannot_be_base := false } rfl⟩

/-- C4: URL building strips exactly one trailing empty path segment
before appending the API suffix (`pop_if_empty` removes exactly the one
trailing empty segment), so a parsed address with one extra trailing
empty segment — a trailing slash — yields the same final URL as the same
address without it. -/
theorem build_kv_read_url_trailing_slash_insensitive (src : VaultSource)
    (u : ParsedUrl) :
    popIfEmpty (u.segments ++ [""]) = u.segments ∧
    (u.segments.getLast? ≠ some "" →
      src.build_kv_read_url (.ok { u with segments := u.segments ++ [""] }) =
      src.build_kv_read_url (.ok u)) := by
  have h1 : popIfEmpty (u.segments ++ [""]) = u.segments := by
    simp [popIfEmpty]
  refine ⟨h1, ?_⟩
  intro h2
  have h3 : popIfEmpty u.segments = u.segments := by
    simp [popIfEmpty, h2]
  simp [VaultSource.build_kv_read_url, h1, h3]

/-- Witness for C4: `http://127.0.0.1:8200/base/` (segments
`["base", ""]`) versus `http://127.0.0.1:8200/base` (segments
`["base"]`). -/
theorem build_kv_read_url_trailing_slash_insensitive_witness :
    popIfEmpty (["base"] ++ [""]) = ["base"] ∧
    ((["base"] : List String).getLast? ≠ some "" →
      (VaultSource.new "http://127.0.0.1:8200/base/" "hvs.token" "secret"
        "dev").build_kv_read_url
        (.ok { scheme := "http", host := "127.0.0.1", port := some 8200,
               segments := ["base"] ++ [""], cannot_be_base := false }) =
      (VaultSource.new "http://127.0.0.1:8200/base/" "hvs.token" "secret"
        "dev").build_kv_read_url
        (.ok { scheme := "http", host := "127.0.0.1", port := some 8200,
               segments := ["base"], cannot_be_base := false })) :=
  build_kv_read_url_trailing_slash_insensitive
    (VaultSource.new "http://127.0.0.1:8200/base/" "hvs.token" "secret" "dev")
    { scheme := "http", host := "127.0.0.1", port := some 8200,
      segments := ["base"], cannot_be_base := false }
